import Mathlib

/-!
Verification of `test-uv-python-upgrade.py`, an end-to-end regression test
that drives the external `uv` tool: it pins a Python version, runs the
upgrade command, and asserts the pin marker file and the runtime version
still report 3.12.

The script is sequential and interacts with the outside world only through
subprocess invocations and reads of one marker file.  We embed it as a pure
function over an environment oracle (`Env`) recording what each external
command returns and what the marker file holds at each read.  The trace the
function produces records the returned value (or an uncaught exception),
the scenario commands invoked, every line printed, and the filesystem
operations the script itself performs.
-/

namespace UvUpgradeTest

/-- Result of one external process invocation, mirroring the fields of
`subprocess.CompletedProcess` that the script consumes. -/
structure CompletedProcess where
  returncode : Int
  stdout : String
  stderr : String
deriving DecidableEq

/-- Model of Python `str.strip()`: drop whitespace from both ends.
Implemented over the character list so that it reduces by `decide`. -/
def pyStrip (s : String) : String :=
  String.mk (((s.data.dropWhile Char.isWhitespace).reverse.dropWhile
    Char.isWhitespace).reverse)

/-- Model of Python `str.startswith(pre)`: the characters of `pre` are a
prefix of the characters of `s`. -/
def pyStartswith (s pre : String) : Bool :=
  pre.data.isPrefixOf s.data

/-- Model of Python `needle in hay` on strings: `needle` occurs as a
contiguous substring of `hay`. -/
def pyIn (needle hay : String) : Bool :=
  (List.range (hay.data.length + 1)).any fun i =>
    needle.data.isPrefixOf (hay.data.drop i)

/-- The scenario commands the verifier can invoke (the preflight
`uv --version` probe is modelled separately in `MainEnv`). -/
inductive Step where
  | pin
  | upgrade
  | runPython
deriving DecidableEq

/-- Filesystem operations the script itself performs.  Paths are segment
lists; the temporary directory is the one-segment path `[td]`. -/
inductive FsOp where
  | createTempDir (path : List String)
  | checkExists (path : List String)
  | readFile (path : List String)
  | removeTree (path : List String)
deriving DecidableEq

/-- Path an operation touches. -/
def FsOp.path : FsOp → List String
  | .createTempDir p => p
  | .checkExists p => p
  | .readFile p => p
  | .removeTree p => p

/-- Whether the operation modifies filesystem state (reads and existence
checks do not). -/
def FsOp.modifies : FsOp → Bool
  | .createTempDir _ => true
  | .checkExists _ => false
  | .readFile _ => false
  | .removeTree _ => true

/-- Environment oracle for one run of the scenario: what each external
command returns, and what the marker file holds at each observation point.
`contentAfterUpgrade = none` models the marker file being absent when the
script re-reads it after the upgrade step (Python `read_text` would raise
`FileNotFoundError` there).  `contentAfterPin` is the text read right after
a successful existence check. -/
structure Env where
  td : String
  pin : CompletedProcess
  markerExists : Bool
  contentAfterPin : String
  upgrade : CompletedProcess
  contentAfterUpgrade : Option String
  runPython : CompletedProcess
deriving DecidableEq

/-- Path of the `.python-version` marker file inside the temp directory. -/
def markerPath (td : String) : List String :=
  [td, ".python-version"]

/-- Embedding of `run_command`: the subprocess result is supplied by the
environment; the function echoes the command line, then the captured
stdout and stderr when nonempty (Python truthiness of the strings). -/
def run_command (cmd : List String) (result : CompletedProcess) :
    CompletedProcess × List String :=
  (result,
    ["$ " ++ String.intercalate " " cmd]
      ++ (if result.stdout = "" then [] else [result.stdout])
      ++ (if result.stderr = "" then [] else [result.stderr]))

/-- Outcome of `test_python_upgrade_respects_pin`: a normal `return`
carrying the boolean, or an exception propagating out (the unhandled
`FileNotFoundError` from re-reading an absent marker file). -/
inductive TestResult where
  | returned (passed : Bool)
  | raised
deriving DecidableEq

/-- Full observable trace of one run of the test function. -/
structure TestTrace where
  result : TestResult
  invoked : List Step
  prints : List String
  fsOps : List FsOp
deriving DecidableEq

/-- The failure message printed when the pin command exits nonzero. -/
def pinFailMsg (n : Int) : String :=
  "FAIL: uv python pin 3.12 failed with code " ++ toString n

/-- The failure message printed when the marker file is missing. -/
def missingFileMsg : String :=
  "FAIL: .python-version file was not created"

/-- The failure message printed when the upgrade command exits nonzero. -/
def upgradeFailMsg (n : Int) : String :=
  "FAIL: uv python upgrade failed with code " ++ toString n

/-- The failure message printed on a marker-content mismatch. -/
def mismatchMsg (v : String) : String :=
  "FAIL: Expected Python 3.12.x but got " ++ v

/-- The failure message printed when the run command exits nonzero. -/
def runFailMsg (n : Int) : String :=
  "FAIL: uv run python --version failed with code " ++ toString n

/-- The failure message printed when the version output lacks "3.12". -/
def outputMismatchMsg (v : String) : String :=
  "FAIL: Expected Python 3.12.x in output but got: " ++ v

/-- Body of the `with` block of `test_python_upgrade_respects_pin`,
translated statement by statement from the source.  Each early `return
False` yields `.returned false`; reaching the end yields `.returned true`;
re-reading an absent marker yields `.raised`. -/
def scenarioBody (env : Env) : TestTrace :=
  let marker := markerPath env.td
  let rc1 := run_command ["uv", "python", "pin", "3.12"] env.pin
  let p1 := ["\n=== Step 1: Pin to Python 3.12 ==="] ++ rc1.2
  if rc1.1.returncode ≠ 0 then
    ⟨.returned false, [.pin], p1 ++ [pinFailMsg rc1.1.returncode], []⟩
  else
    let fs1 := [FsOp.checkExists marker]
    if env.markerExists = false then
      ⟨.returned false, [.pin], p1 ++ [missingFileMsg], fs1⟩
    else
      let pinned_version := pyStrip env.contentAfterPin
      let p2 := p1 ++ ["Pinned version in .python-version: " ++ pinned_version]
      let fs2 := fs1 ++ [FsOp.readFile marker]
      let rc2 := run_command ["uv", "python", "upgrade"] env.upgrade
      let p3 := p2 ++ ["\n=== Step 2: Run uv python upgrade ==="] ++ rc2.2
      if rc2.1.returncode ≠ 0 then
        ⟨.returned false, [.pin, .upgrade],
          p3 ++ [upgradeFailMsg rc2.1.returncode], fs2⟩
      else
        let p4 := p3 ++ ["\n=== Step 3: Verify Python version ==="]
        let fs3 := fs2 ++ [FsOp.readFile marker]
        match env.contentAfterUpgrade with
        | none => ⟨.raised, [.pin, .upgrade], p4, fs3⟩
        | some c =>
          let upgraded_version := pyStrip c
          let p5 := p4 ++ ["Version after upgrade: " ++ upgraded_version]
          if pyStartswith upgraded_version "3.12" = false then
            ⟨.returned false, [.pin, .upgrade],
              p5 ++ [mismatchMsg upgraded_version], fs3⟩
          else
            let rc3 := run_command ["uv", "run", "python", "--version"] env.runPython
            let p6 := p5 ++ ["\n=== Step 4: Verify with uv run python --version ==="]
              ++ rc3.2
            if rc3.1.returncode ≠ 0 then
              ⟨.returned false, [.pin, .upgrade, .runPython],
                p6 ++ [runFailMsg rc3.1.returncode], fs3⟩
            else
              let version_output := pyStrip rc3.1.stdout
              let p7 := p6 ++ ["Python version output: " ++ version_output]
              if pyIn "3.12" version_output = false then
                ⟨.returned false, [.pin, .upgrade, .runPython],
                  p7 ++ [outputMismatchMsg version_output], fs3⟩
              else
                ⟨.returned true, [.pin, .upgrade, .runPython],
                  p7 ++ ["\n=== PASS: uv python upgrade correctly uses Python 3.12 ==="],
                  fs3⟩

/-- Embedding of `test_python_upgrade_respects_pin`.  The
`tempfile.TemporaryDirectory()` context manager creates the working
directory on entry and removes it on exit on every path — normal return
and propagating exception alike — so the wrapper brackets the body's
filesystem operations with the creation and the removal. -/
def test_python_upgrade_respects_pin (env : Env) : TestTrace :=
  let t := scenarioBody env
  { t with fsOps := FsOp.createTempDir [env.td] :: (t.fsOps ++ [FsOp.removeTree [env.td]]) }

/-- Environment for `main`: whether launching `uv --version` succeeds at
all (`false` models `FileNotFoundError`), the probe's result when it does,
and the scenario oracle. -/
structure MainEnv where
  uvAvailable : Bool
  uvProbe : CompletedProcess
  scenario : Env
deriving DecidableEq

/-- How the process as a whole terminates: `sys.exit(main())` with the
returned code, or an exception escaping `main` (a Python traceback). -/
inductive MainOutcome where
  | exited (code : Int)
  | uncaught
deriving DecidableEq

/-- Observable trace of one run of `main`. -/
structure MainTrace where
  outcome : MainOutcome
  invoked : List Step
  prints : List String
  fsOps : List FsOp
deriving DecidableEq

/-- Embedding of `main`: preflight probe, then the scenario, then
translation of the boolean into an exit code. -/
def main (m : MainEnv) : MainTrace :=
  let p0 := ["Testing uv python upgrade behavior (issue #16370)",
    String.mk (List.replicate 60 '=')]
  if m.uvAvailable = false then
    ⟨.exited 1, [], p0 ++ ["ERROR: uv is not installed or not in PATH"], []⟩
  else
    let p1 := p0 ++ ["uv version: " ++ pyStrip m.uvProbe.stdout]
    let t := test_python_upgrade_respects_pin m.scenario
    match t.result with
    | .returned b => ⟨.exited (if b then 0 else 1), t.invoked, p1 ++ t.prints, t.fsOps⟩
    | .raised => ⟨.uncaught, t.invoked, p1 ++ t.prints, t.fsOps⟩

/-- Exit status of the whole process: the code passed to `sys.exit`, or 1
when an exception reaches the interpreter (CPython exits with status 1 on
an unhandled exception). -/
def processExitCode (t : MainTrace) : Int :=
  match t.outcome with
  | .exited c => c
  | .uncaught => 1

/-! Concrete environments used to instantiate the theorems below. -/

/-- A command result with exit status 0 and empty streams. -/
def okProc : CompletedProcess :=
  { returncode := 0, stdout := "", stderr := "" }

/-- A command result with exit status 1 and empty streams. -/
def failProc : CompletedProcess :=
  { returncode := 1, stdout := "", stderr := "" }

/-- The intended scenario: every command succeeds, the marker file holds
3.12 before and after the upgrade, and the runtime reports 3.12.1. -/
def envHappy : Env :=
  { td := "tmp", pin := okProc, markerExists := true, contentAfterPin := "3.12\n",
    upgrade := okProc, contentAfterUpgrade := some "3.12\n",
    runPython := { returncode := 0, stdout := "Python 3.12.1\n", stderr := "" } }

/-- A run where the pin command exits nonzero. -/
def envPinFail : Env :=
  { envHappy with pin := failProc }

/-- A run where the pin command succeeds but the marker file is absent. -/
def envNoMarker : Env :=
  { envHappy with markerExists := false }

/-- A run where the upgrade moved the pin to 3.11. -/
def envWrong : Env :=
  { envHappy with contentAfterUpgrade := some "3.11\n" }

/-- A run where the marker file is gone when re-read after an upgrade that
exited zero. -/
def envMarkerGone : Env :=
  { envHappy with contentAfterUpgrade := none }

/-- A run where the marker file is gone and the upgrade exited nonzero. -/
def envMarkerGoneFail : Env :=
  { envHappy with contentAfterUpgrade := none, upgrade := failProc }

/-- A run where the marker holds 3.120 after the upgrade — a different
minor version that nevertheless starts with the characters "3.12". -/
def envOddMinor : Env :=
  { envHappy with
    contentAfterUpgrade := some "3.120\n"
    runPython := { returncode := 0, stdout := "Python 3.120.0\n", stderr := "" } }

/-- A run where the version text appears only on the run command's
standard error while its standard output is empty. -/
def envStderrOnly : Env :=
  { envHappy with
    runPython := { returncode := 0, stdout := "", stderr := "Python 3.12.1\n" } }


/-- A main environment where launching `uv --version` raises
file-not-found. -/
def menvNoUv : MainEnv :=
  { uvAvailable := false, uvProbe := okProc, scenario := envHappy }

/-- A main environment where the preflight probe succeeds and the
scenario passes. -/
def menvHappy : MainEnv :=
  { uvAvailable := true, uvProbe := { returncode := 0, stdout := "uv 0.9.0\n", stderr := "" },
    scenario := envHappy }

/-! Theorems settling the claims. -/

/-- C5: whenever the pin command exits nonzero, the verifier returns the
failure outcome, prints the message carrying that exit code, and invokes
no command beyond the pin command itself. -/
theorem c5_pin_failure (env : Env) (h : env.pin.returncode ≠ 0) :
    (test_python_upgrade_respects_pin env).result = .returned false ∧
    (test_python_upgrade_respects_pin env).invoked = [Step.pin] ∧
    pinFailMsg env.pin.returncode ∈ (test_python_upgrade_respects_pin env).prints := by
  unfold test_python_upgrade_respects_pin scenarioBody run_command
  simp [h]

/-- C5 witness: instantiation at a run whose pin command exits with 1. -/
theorem c5_pin_failure_witness :
    (test_python_upgrade_respects_pin envPinFail).result = .returned false ∧
    (test_python_upgrade_respects_pin envPinFail).invoked = [Step.pin] ∧
    pinFailMsg envPinFail.pin.returncode ∈ (test_python_upgrade_respects_pin envPinFail).prints :=
  c5_pin_failure envPinFail (by decide)

/-- C6: whenever the pin command exits zero but the marker file does not
exist, the verifier fails with the missing-file message — a message
distinct from every nonzero-exit-status message — and takes no further
step. -/
theorem c6_missing_marker_distinct (env : Env)
    (h1 : env.pin.returncode = 0) (h2 : env.markerExists = false) :
    (test_python_upgrade_respects_pin env).result = .returned false ∧
    (test_python_upgrade_respects_pin env).invoked = [Step.pin] ∧
    missingFileMsg ∈ (test_python_upgrade_respects_pin env).prints ∧
    (∀ n : Int, missingFileMsg ≠ pinFailMsg n) := by
  refine ⟨?_, ?_, ?_, ?_⟩
  · unfold test_python_upgrade_respects_pin scenarioBody run_command
    simp [h1, h2]
  · unfold test_python_upgrade_respects_pin scenarioBody run_command
    simp [h1, h2]
  · unfold test_python_upgrade_respects_pin scenarioBody run_command
    simp [h1, h2]
  · intro n h
    have h9 := congrArg (fun t => t.data.take 9) h
    simp only [missingFileMsg, pinFailMsg, String.data_append] at h9
    rw [List.take_append_of_le_length (by decide)] at h9
    exact absurd h9 (by decide)

/-- C6 witness: instantiation at a run where the pin succeeds but the
marker file is absent. -/
theorem c6_missing_marker_distinct_witness :
    (test_python_upgrade_respects_pin envNoMarker).result = .returned false ∧
    missingFileMsg ∈ (test_python_upgrade_respects_pin envNoMarker).prints :=
  ⟨(c6_missing_marker_distinct envNoMarker (by decide) (by decide)).1,
   (c6_missing_marker_distinct envNoMarker (by decide) (by decide)).2.2.1⟩

/-- C2: in a run where the pin exited zero, the marker existed, and the
upgrade exited zero, the verifier fails without performing the runtime
query exactly when the re-read, trimmed marker content does not start
with "3.12". -/
theorem c2_marker_assertion (env : Env) (s : String)
    (h1 : env.pin.returncode = 0) (h2 : env.markerExists = true)
    (h3 : env.upgrade.returncode = 0) (h4 : env.contentAfterUpgrade = some s) :
    ((test_python_upgrade_respects_pin env).result = .returned false ∧
      Step.runPython ∉ (test_python_upgrade_respects_pin env).invoked) ↔
    pyStartswith (pyStrip s) "3.12" = false := by
  unfold test_python_upgrade_respects_pin scenarioBody run_command
  rcases hps : pyStartswith (pyStrip s) "3.12" <;>
    by_cases hrc : env.runPython.returncode = 0 <;>
      rcases hin : pyIn "3.12" (pyStrip env.runPython.stdout) <;>
        simp [h1, h2, h3, h4, hps, hrc, hin]

/-- C2 witness: instantiation at a run whose marker reads 3.11 after the
upgrade. -/
theorem c2_marker_assertion_witness :
    (test_python_upgrade_respects_pin envWrong).result = .returned false ∧
    Step.runPython ∉ (test_python_upgrade_respects_pin envWrong).invoked :=
  (c2_marker_assertion envWrong "3.11\n" (by decide) (by decide) (by decide)
    (by decide)).mpr (by decide)

/-- C3: in a run that reaches the runtime query (pin zero, marker
present, upgrade zero, trimmed re-read content starting with "3.12"),
the verifier returns success exactly when the run command exits zero and
its trimmed captured standard output contains "3.12". -/
theorem c3_runtime_query (env : Env) (s : String)
    (h1 : env.pin.returncode = 0) (h2 : env.markerExists = true)
    (h3 : env.upgrade.returncode = 0) (h4 : env.contentAfterUpgrade = some s)
    (h5 : pyStartswith (pyStrip s) "3.12" = true) :
    (test_python_upgrade_respects_pin env).result = .returned true ↔
    (env.runPython.returncode = 0 ∧
      pyIn "3.12" (pyStrip env.runPython.stdout) = true) := by
  unfold test_python_upgrade_respects_pin scenarioBody run_command
  by_cases hrc : env.runPython.returncode = 0 <;>
    rcases hin : pyIn "3.12" (pyStrip env.runPython.stdout) <;>
      simp [h1, h2, h3, h4, h5, hrc, hin]

/-- C3 witness: instantiation at the intended passing run. -/
theorem c3_runtime_query_witness :
    (test_python_upgrade_respects_pin envHappy).result = .returned true :=
  (c3_runtime_query envHappy "3.12\n" (by decide) (by decide) (by decide)
    (by decide) (by decide)).mpr (by decide)

/-- C1: the process exit code is 0 exactly when the scenario passes; it
is always 0 or 1; and when launching the preflight probe raises
file-not-found, the exit code is 1 and no scenario command is invoked. -/
theorem c1_exit_code (m : MainEnv) :
    (processExitCode (main m) = 0 ↔
      (m.uvAvailable = true ∧
        (test_python_upgrade_respects_pin m.scenario).result = .returned true)) ∧
    (processExitCode (main m) = 0 ∨ processExitCode (main m) = 1) ∧
    (m.uvAvailable = false →
      processExitCode (main m) = 1 ∧ (main m).invoked = []) := by
  unfold main processExitCode
  rcases hav : m.uvAvailable
  · simp [hav]
  · rcases hres : (test_python_upgrade_respects_pin m.scenario).result with b | _
    · rcases b <;> simp [hav, hres]
    · simp [hav, hres]

/-- C1 witness: with the tool unavailable the exit code is 1 and no
scenario step runs; with the passing scenario the exit code is 0. -/
theorem c1_exit_code_witness :
    (processExitCode (main menvNoUv) = 1 ∧ (main menvNoUv).invoked = []) ∧
    processExitCode (main menvHappy) = 0 :=
  ⟨(c1_exit_code menvNoUv).2.2 (by decide),
   ((c1_exit_code menvHappy).1).mpr ⟨by decide, by decide⟩⟩

/-- C4 counterexample: a run in which the pin succeeded, the marker
existed, the upgrade exited zero, but the marker file is absent when
re-read.  The claim says the verifier reports a failure outcome rather
than crashing; in fact the re-read raises an unhandled exception. -/
theorem c4_claim_counterexample :
    envMarkerGone.pin.returncode = 0 ∧ envMarkerGone.markerExists = true ∧
    envMarkerGone.upgrade.returncode = 0 ∧
    envMarkerGone.contentAfterUpgrade = none ∧
    (test_python_upgrade_respects_pin envMarkerGone).result = .raised ∧
    (test_python_upgrade_respects_pin envMarkerGone).result ≠ .returned false := by
  decide

/-- C4 (amended): when the marker file is absent at the re-read point, the
verifier reports the upgrade command's own failure when that command
exited nonzero; but when the upgrade command exited zero, the re-read
raises an unhandled file-not-found exception instead of producing a
reported failure outcome. -/
theorem c4_missing_marker (env : Env)
    (h1 : env.pin.returncode = 0) (h2 : env.markerExists = true)
    (h4 : env.contentAfterUpgrade = none) :
    (env.upgrade.returncode ≠ 0 →
      (test_python_upgrade_respects_pin env).result = .returned false ∧
      upgradeFailMsg env.upgrade.returncode ∈
        (test_python_upgrade_respects_pin env).prints) ∧
    (env.upgrade.returncode = 0 →
      (test_python_upgrade_respects_pin env).result = .raised) := by
  constructor
  · intro h3
    unfold test_python_upgrade_respects_pin scenarioBody run_command
    simp [h1, h2, h3, h4]
  · intro h3
    unfold test_python_upgrade_respects_pin scenarioBody run_command
    simp [h1, h2, h3, h4]

/-- C4 witness: both halves of the amended claim at concrete runs. -/
theorem c4_missing_marker_witness :
    (test_python_upgrade_respects_pin envMarkerGoneFail).result = .returned false ∧
    (test_python_upgrade_respects_pin envMarkerGone).result = .raised :=
  ⟨((c4_missing_marker envMarkerGoneFail (by decide) (by decide) (by decide)).1
      (by decide)).1,
   (c4_missing_marker envMarkerGone (by decide) (by decide) (by decide)).2 (by decide)⟩

/-- C9: the post-upgrade marker check is a literal character test: any
re-read content whose trimmed characters begin with the characters of
"3.12" — including "3.120" — passes it, so the verifier goes on to
invoke the runtime query. -/
theorem c9_literal_version_check (env : Env) (s : String)
    (h1 : env.pin.returncode = 0) (h2 : env.markerExists = true)
    (h3 : env.upgrade.returncode = 0) (h4 : env.contentAfterUpgrade = some s)
    (h5 : "3.12".data <+: (pyStrip s).data) :
    Step.runPython ∈ (test_python_upgrade_respects_pin env).invoked := by
  have hps : pyStartswith (pyStrip s) "3.12" = true := by
    unfold pyStartswith
    exact List.isPrefixOf_iff_prefix.mpr h5
  unfold test_python_upgrade_respects_pin scenarioBody run_command
  by_cases hrc : env.runPython.returncode = 0 <;>
    rcases hin : pyIn "3.12" (pyStrip env.runPython.stdout) <;>
      simp [h1, h2, h3, h4, hps, hrc, hin]

/-- C9 witness: a marker reading "3.120" — a different minor version —
still passes the check and the runtime query is invoked. -/
theorem c9_literal_version_check_witness :
    Step.runPython ∈ (test_python_upgrade_respects_pin envOddMinor).invoked :=
  c9_literal_version_check envOddMinor "3.120\n" (by decide) (by decide)
    (by decide) (by decide) (by decide)

/-- C10: the runtime-query cross-check inspects only captured standard
output: when the run command exits zero, its trimmed standard output
lacks "3.12", and the version text sits only on standard error, the
verifier still reports the output-mismatch failure. -/
theorem c10_stdout_only (env : Env) (s : String)
    (h1 : env.pin.returncode = 0) (h2 : env.markerExists = true)
    (h3 : env.upgrade.returncode = 0) (h4 : env.contentAfterUpgrade = some s)
    (h5 : pyStartswith (pyStrip s) "3.12" = true)
    (h6 : env.runPython.returncode = 0)
    (h7 : pyIn "3.12" (pyStrip env.runPython.stdout) = false)
    (_h8 : pyIn "3.12" env.runPython.stderr = true) :
    (test_python_upgrade_respects_pin env).result = .returned false ∧
    outputMismatchMsg (pyStrip env.runPython.stdout) ∈
      (test_python_upgrade_respects_pin env).prints := by
  unfold test_python_upgrade_respects_pin scenarioBody run_command
  simp [h1, h2, h3, h4, h5, h6, h7]

/-- C10 witness: the run command prints the version only on standard
error; the verifier fails despite the zero exit status. -/
theorem c10_stdout_only_witness :
    (test_python_upgrade_respects_pin envStderrOnly).result = .returned false :=
  (c10_stdout_only envStderrOnly "3.12\n" (by decide) (by decide) (by decide)
    (by decide) (by decide) (by decide) (by decide) (by decide)).1

/-- Helper: the wrapper brackets the body's filesystem operations with
the creation and removal of the temporary directory. -/
theorem test_fsOps_eq (env : Env) :
    (test_python_upgrade_respects_pin env).fsOps =
      FsOp.createTempDir [env.td] ::
        ((scenarioBody env).fsOps ++ [FsOp.removeTree [env.td]]) := rfl

/-- Helper: the filesystem operations of the scenario body form one of
four explicit lists, depending on how far the run gets. -/
theorem scenarioBody_fsOps_cases (env : Env) :
    (scenarioBody env).fsOps = [] ∨
    (scenarioBody env).fsOps = [FsOp.checkExists (markerPath env.td)] ∨
    (scenarioBody env).fsOps =
      [FsOp.checkExists (markerPath env.td), FsOp.readFile (markerPath env.td)] ∨
    (scenarioBody env).fsOps =
      [FsOp.checkExists (markerPath env.td), FsOp.readFile (markerPath env.td),
        FsOp.readFile (markerPath env.td)] := by
  unfold scenarioBody run_command
  by_cases h1 : env.pin.returncode ≠ 0 <;>
  by_cases h2 : env.markerExists = false <;>
  by_cases h3 : env.upgrade.returncode ≠ 0 <;>
  rcases h4 : env.contentAfterUpgrade with _ | c <;>
  simp [h1, h2, h3, h4] <;>
  split_ifs <;>
  simp_all

/-- C7: on every run — every exit path of the verifier — the first
filesystem operation creates the temporary directory, the last one
removes it, every operation stays inside that directory, and the only
modifying operations are that creation and removal. -/
theorem c7_tempdir_cleanup (env : Env) :
    (test_python_upgrade_respects_pin env).fsOps.head? =
      some (FsOp.createTempDir [env.td]) ∧
    (test_python_upgrade_respects_pin env).fsOps.getLast? =
      some (FsOp.removeTree [env.td]) ∧
    ∀ op ∈ (test_python_upgrade_respects_pin env).fsOps,
      [env.td] <+: FsOp.path op ∧
      (FsOp.modifies op = true →
        op = FsOp.createTempDir [env.td] ∨ op = FsOp.removeTree [env.td]) := by
  have hm : [env.td] <+: markerPath env.td := ⟨[".python-version"], rfl⟩
  rcases scenarioBody_fsOps_cases env with h | h | h | h <;>
    rw [test_fsOps_eq env, h] <;>
    refine ⟨rfl, by rw [← List.cons_append, List.getLast?_concat], ?_⟩ <;>
    · intro op hop
      simp only [List.cons_append, List.nil_append, List.mem_cons,
        List.not_mem_nil, or_false] at hop
      rcases hop with rfl | rfl | rfl | rfl | rfl
      all_goals first
        | exact ⟨List.prefix_refl _, fun _ => Or.inl rfl⟩
        | exact ⟨List.prefix_refl _, fun _ => Or.inr rfl⟩
        | exact ⟨hm, fun hc => by simp [FsOp.modifies] at hc⟩

/-- C7 witness: instantiation at the passing run: the first operation
creates the directory, the last removes it, and the marker-existence
check stays inside the directory and modifies nothing. -/
theorem c7_tempdir_cleanup_witness :
    (test_python_upgrade_respects_pin envHappy).fsOps.head? =
      some (FsOp.createTempDir [envHappy.td]) ∧
    [envHappy.td] <+: FsOp.path (FsOp.checkExists (markerPath envHappy.td)) :=
  ⟨(c7_tempdir_cleanup envHappy).1,
   ((c7_tempdir_cleanup envHappy).2.2 (FsOp.checkExists (markerPath envHappy.td))
     (by decide)).1⟩

/-- C8: the value read from the marker file right after the pin step is
used only for diagnostic printing: two runs identical except for that
value produce the same outcome, invoke the same commands, and perform
the same filesystem operations. -/
theorem c8_diagnostic_noninterference (env : Env) (c₁ c₂ : String) :
    (test_python_upgrade_respects_pin { env with contentAfterPin := c₁ }).result =
      (test_python_upgrade_respects_pin { env with contentAfterPin := c₂ }).result ∧
    (test_python_upgrade_respects_pin { env with contentAfterPin := c₁ }).invoked =
      (test_python_upgrade_respects_pin { env with contentAfterPin := c₂ }).invoked ∧
    (test_python_upgrade_respects_pin { env with contentAfterPin := c₁ }).fsOps =
      (test_python_upgrade_respects_pin { env with contentAfterPin := c₂ }).fsOps := by
  unfold test_python_upgrade_respects_pin scenarioBody run_command
  by_cases h1 : env.pin.returncode ≠ 0 <;>
  by_cases h2 : env.markerExists = false <;>
  by_cases h3 : env.upgrade.returncode ≠ 0 <;>
  rcases h4 : env.contentAfterUpgrade with _ | c <;>
  simp [h1, h2, h3, h4] <;>
  split_ifs <;>
  simp_all

end UvUpgradeTest
